import Mathlib

/-!
Shallow embedding of the `onecondition` validation library.

The repository consists of two parallel copies of the same API:
* `onecondition/__init__.py` with a `Test` class of boolean predicates and a
  `Validate` class of raising validators, plus a `ValidationError` class;
* `onecondition/validate.py` with module-level validators delegating to a
  predicate module `onecondition.test` (that module itself is not present in
  the sources; its predicates are modelled from the specification table) and
  its own `ValidationError` class.

Python values in the library's domain (`None`, ints, floats, bools, strings)
are modelled by `PyVal`; floats are modelled as rationals, which covers every
documented numeric input except NaN/infinities (the specification leaves NaN
behaviour explicitly unspecified).  Raising is modelled with `Except`:
`.ok ()` is a normal return, `.error e` a raised exception `e`.  A raised
exception carries its runtime class, so that subclass-based catching
(`except ValueError`) can be expressed.
-/

/-- Runtime classes occurring in the library and its documentation: the
built-in scalar types, `ValueError`, `TypeError`, and the two distinct
`ValidationError` classes (one per module copy). -/
inductive PyType where
  | noneType
  | intT
  | floatT
  | boolT
  | strT
  | valueError
  | typeError
  | initValidationError
  | validationError
deriving DecidableEq

/-- Python's subclass relation restricted to the classes above: reflexive,
`bool` is a subclass of `int`, and both `ValidationError` classes are
declared as `class ValidationError(ValueError)`. -/
def isSubclassOf (s t : PyType) : Bool :=
  decide (s = t) ||
  (decide (s = PyType.boolT) && decide (t = PyType.intT)) ||
  (decide (s = PyType.initValidationError) && decide (t = PyType.valueError)) ||
  (decide (s = PyType.validationError) && decide (t = PyType.valueError))

/-- A raised exception: its runtime class and the stored `message` attribute
(`ValidationError.__init__` takes `message: str = None`). -/
structure PyExc where
  cls : PyType
  message : Option String
deriving DecidableEq

/-- An `except C:` handler catches exception `e` iff the runtime class of `e`
is `C` or a subclass of `C`. -/
def catchesClass (handler : PyType) (e : PyExc) : Bool :=
  isSubclassOf e.cls handler

/-- Python values in the domain of the library: `None`, `int`, `float`
(modelled as an exact rational, excluding NaN), `bool`, `str`. -/
inductive PyVal where
  | none
  | int (i : ℤ)
  | float (q : ℚ)
  | bool (b : Bool)
  | str (s : String)
deriving DecidableEq

/-- `type(value)`: the runtime class of a value. -/
def PyVal.typeOf : PyVal → PyType
  | .none => .noneType
  | .int _ => .intT
  | .float _ => .floatT
  | .bool _ => .boolT
  | .str _ => .strT

/-- The numeric content of a value, if it has one.  Python treats `bool` as a
numeric type with `True == 1` and `False == 0`. -/
def toRat : PyVal → Option ℚ
  | .int i => some (i : ℚ)
  | .float q => some q
  | .bool b => some (if b then 1 else 0)
  | _ => Option.none

/-- The `__name__`-qualified rendering of each class, as it appears inside
`str(cls)`. -/
def typeName : PyType → String
  | .noneType => "NoneType"
  | .intT => "int"
  | .floatT => "float"
  | .boolT => "bool"
  | .strT => "str"
  | .valueError => "ValueError"
  | .typeError => "TypeError"
  | .initValidationError => "onecondition.ValidationError"
  | .validationError => "onecondition.validate.ValidationError"

/-- `str(cls)` for a class object. -/
def typeStr (t : PyType) : String :=
  "<class '" ++ typeName t ++ "'>"

/-- Python `==`: numeric values (including bools) compare by numeric value
across types; strings compare by content; `None` equals only `None`;
everything else compares unequal. -/
def pyEq (a b : PyVal) : Bool :=
  match toRat a, toRat b with
  | some x, some y => decide (x = y)
  | _, _ =>
    match a, b with
    | .str s, .str t => decide (s = t)
    | .none, .none => true
    | _, _ => false

/-- The `TypeError` Python raises for an unsupported order comparison. -/
def cmpTypeError (op : String) (a b : PyVal) : PyExc :=
  ⟨.typeError, some ("'" ++ op ++ "' not supported between instances of '"
      ++ typeName a.typeOf ++ "' and '" ++ typeName b.typeOf ++ "'")⟩

/-- Python `<`: numeric on numbers, lexicographic on strings, `TypeError`
otherwise. -/
def pyLt (a b : PyVal) : Except PyExc Bool :=
  match toRat a, toRat b with
  | some x, some y => .ok (decide (x < y))
  | _, _ =>
    match a, b with
    | .str s, .str t => .ok (decide (s < t))
    | _, _ => .error (cmpTypeError "<" a b)

/-- Python `<=`. -/
def pyLe (a b : PyVal) : Except PyExc Bool :=
  match toRat a, toRat b with
  | some x, some y => .ok (decide (x ≤ y))
  | _, _ =>
    match a, b with
    | .str s, .str t => .ok (decide (s < t) || decide (s = t))
    | _, _ => .error (cmpTypeError "<=" a b)

/-- Python `>`. -/
def pyGt (a b : PyVal) : Except PyExc Bool :=
  match toRat a, toRat b with
  | some x, some y => .ok (decide (y < x))
  | _, _ =>
    match a, b with
    | .str s, .str t => .ok (decide (t < s))
    | _, _ => .error (cmpTypeError ">" a b)

/-- Python `>=`. -/
def pyGe (a b : PyVal) : Except PyExc Bool :=
  match toRat a, toRat b with
  | some x, some y => .ok (decide (y ≤ x))
  | _, _ =>
    match a, b with
    | .str s, .str t => .ok (decide (t < s) || decide (s = t))
    | _, _ => .error (cmpTypeError ">=" a b)

/-- Rendering of a numeric float value.  Integral floats render as in Python
(`1.0`); the decimal rendering of non-integral floats is abstracted as
`num/den` (no claim pins down its exact text, and both module copies share
this rendering). -/
def floatRepr (q : ℚ) : String :=
  if q.den = 1 then toString q.num ++ ".0" else toString q.num ++ "/" ++ toString q.den

/-- `str(value)`. -/
def pyStr : PyVal → String
  | .none => "None"
  | .int i => toString i
  | .float q => floatRepr q
  | .bool b => if b then "True" else "False"
  | .str s => s

/-- Escaping of one character inside a Python string repr. -/
def pyEscapeChar (quote : Char) (c : Char) : String :=
  if c = Char.ofNat 92 then String.singleton (Char.ofNat 92) ++ String.singleton (Char.ofNat 92)
  else if c = quote then String.singleton (Char.ofNat 92) ++ String.singleton quote
  else if c = Char.ofNat 10 then String.singleton (Char.ofNat 92) ++ "n"
  else if c = Char.ofNat 13 then String.singleton (Char.ofNat 92) ++ "r"
  else if c = Char.ofNat 9 then String.singleton (Char.ofNat 92) ++ "t"
  else String.singleton c

/-- `repr` of a string: single-quoted unless the string contains a single
quote and no double quote, with the usual escapes. -/
def pyReprOfString (s : String) : String :=
  let quote : Char :=
    if s.toList.contains (Char.ofNat 39) && !(s.toList.contains (Char.ofNat 34)) then Char.ofNat 34
    else Char.ofNat 39
  String.singleton quote ++ String.join (s.toList.map (pyEscapeChar quote)) ++ String.singleton quote

/-- `repr(value)`: identical to `str` on `None`, numbers and bools; quotes
and escapes strings. -/
def pyRepr : PyVal → String
  | .str s => pyReprOfString s
  | v => pyStr v

/-- `true` iff the call returned normally (raised no exception). -/
def returnsNormally (r : Except PyExc Unit) : Bool :=
  match r with
  | .ok _ => true
  | .error _ => false

namespace onecondition

/-- `Test.none` from `__init__.py`: `value is None`. -/
def Test.none (value : PyVal) : Bool :=
  decide (value = PyVal.none)

/-- `Test.type` from `__init__.py`: `type(value) is value_type`. -/
def Test.type (value : PyVal) (value_type : PyType) : Bool :=
  decide (value.typeOf = value_type)

/-- `Test.instance` from `__init__.py`: `isinstance(value, value_type)`. -/
def Test.instance' (value : PyVal) (value_type : PyType) : Bool :=
  isSubclassOf value.typeOf value_type

/-- `Test.zero` from `__init__.py`: `value == 0`. -/
def Test.zero (value : PyVal) : Bool :=
  pyEq value (PyVal.int 0)

/-- `Test.positive` from `__init__.py`: `value > 0`. -/
def Test.positive (value : PyVal) : Except PyExc Bool :=
  pyGt value (PyVal.int 0)

/-- `Test.negative` from `__init__.py`: `value < 0`. -/
def Test.negative (value : PyVal) : Except PyExc Bool :=
  pyLt value (PyVal.int 0)

/-- `Test.range_inclusive` from `__init__.py`: `minimum <= value <= maximum`
(Python chained comparison: the second comparison is evaluated only when the
first is true). -/
def Test.range_inclusive (value minimum maximum : PyVal) : Except PyExc Bool :=
  match pyLe minimum value with
  | .error e => .error e
  | .ok b => if b then pyLe value maximum else .ok false

/-- `Test.range_non_inclusive` from `__init__.py`: `minimum < value < maximum`. -/
def Test.range_non_inclusive (value minimum maximum : PyVal) : Except PyExc Bool :=
  match pyLt minimum value with
  | .error e => .error e
  | .ok b => if b then pyLt value maximum else .ok false

/-- `Test.eq` from `__init__.py`: `first == second`. -/
def Test.eq (first second : PyVal) : Bool :=
  pyEq first second

/-- `Test.gt` from `__init__.py`: `first > second`. -/
def Test.gt (first second : PyVal) : Except PyExc Bool :=
  pyGt first second

/-- `Test.lte` from `__init__.py`: `first <= second`. -/
def Test.lte (first second : PyVal) : Except PyExc Bool :=
  pyLe first second

/-- `Test.lt` from `__init__.py`: `first < second`. -/
def Test.lt (first second : PyVal) : Except PyExc Bool :=
  pyLt first second

/-- `Test.gte` from `__init__.py`: `first >= second`. -/
def Test.gte (first second : PyVal) : Except PyExc Bool :=
  pyGe first second

/-- The `ValidationError` class of `__init__.py`: subclass of `ValueError`
storing the given message. -/
def ValidationError (message : Option String) : PyExc :=
  ⟨.initValidationError, message⟩

/-- `Validate.none` from `__init__.py`.  Note the source's condition:
`if Test.none(value): raise ...` (it raises when the value IS `None`). -/
def Validate.none (value : PyVal) : Except PyExc Unit :=
  if Test.none value then
    .error (ValidationError (some ("Value '" ++ pyStr value ++ "' must be None")))
  else .ok ()

/-- `Validate.not_none` from `__init__.py`.  Note the source's condition:
`if not Test.none(value): raise ...` (it raises when the value is NOT `None`). -/
def Validate.not_none (value : PyVal) : Except PyExc Unit :=
  if !(Test.none value) then
    .error (ValidationError (some "Value must not be None"))
  else .ok ()

/-- `Validate.type` from `__init__.py`. -/
def Validate.type (value : PyVal) (value_type : PyType) : Except PyExc Unit :=
  if !(Test.type value value_type) then
    .error (ValidationError (some ("Value '" ++ pyStr value ++ "' must be of type "
        ++ typeStr value_type ++ ", not " ++ typeStr value.typeOf)))
  else .ok ()

/-- `Validate.not_type` from `__init__.py`. -/
def Validate.not_type (value : PyVal) (value_type : PyType) : Except PyExc Unit :=
  if Test.type value value_type then
    .error (ValidationError (some ("Value '" ++ pyStr value ++ "' must be not of type "
        ++ typeStr value_type)))
  else .ok ()

/-- `Validate.instance` from `__init__.py`. -/
def Validate.instance' (value : PyVal) (value_type : PyType) : Except PyExc Unit :=
  if !(Test.instance' value value_type) then
    .error (ValidationError (some ("Value '" ++ pyStr value ++ "' must be an instance of "
        ++ typeStr value_type ++ ", not a " ++ typeStr value.typeOf)))
  else .ok ()

/-- `Validate.not_instance` from `__init__.py`. -/
def Validate.not_instance (value : PyVal) (value_type : PyType) : Except PyExc Unit :=
  if Test.instance' value value_type then
    .error (ValidationError (some ("Value '" ++ pyStr value ++ "' must not be an instance of "
        ++ typeStr value_type)))
  else .ok ()

/-- `Validate.zero` from `__init__.py`. -/
def Validate.zero (value : PyVal) : Except PyExc Unit :=
  if !(Test.zero value) then
    .error (ValidationError (some ("Value '" ++ pyStr value ++ "' must be zero")))
  else .ok ()

/-- `Validate.not_zero` from `__init__.py`. -/
def Validate.not_zero (value : PyVal) : Except PyExc Unit :=
  if Test.zero value then
    .error (ValidationError (some ("Value '" ++ pyStr value ++ "' must not be zero")))
  else .ok ()

/-- `Validate.positive` from `__init__.py`. -/
def Validate.positive (value : PyVal) : Except PyExc Unit :=
  match Test.positive value with
  | .error e => .error e
  | .ok b =>
    if !b then
      .error (ValidationError (some ("Value '" ++ pyStr value ++ "' must be positive (non-zero)")))
    else .ok ()

/-- `Validate.not_positive` from `__init__.py`. -/
def Validate.not_positive (value : PyVal) : Except PyExc Unit :=
  match Test.positive value with
  | .error e => .error e
  | .ok b =>
    if b then
      .error (ValidationError (some ("Value '" ++ pyStr value ++ "' must not be positive")))
    else .ok ()

/-- `Validate.negative` from `__init__.py`. -/
def Validate.negative (value : PyVal) : Except PyExc Unit :=
  match Test.negative value with
  | .error e => .error e
  | .ok b =>
    if !b then
      .error (ValidationError (some ("Value '" ++ pyStr value ++ "' must be negative (non-zero)")))
    else .ok ()

/-- `Validate.not_negative` from `__init__.py`. -/
def Validate.not_negative (value : PyVal) : Except PyExc Unit :=
  match Test.negative value with
  | .error e => .error e
  | .ok b =>
    if b then
      .error (ValidationError (some ("Value '" ++ pyStr value ++ "' must not be negative")))
    else .ok ()

/-- `Validate.range_inclusive` from `__init__.py`. -/
def Validate.range_inclusive (value minimum maximum : PyVal) : Except PyExc Unit :=
  match Test.range_inclusive value minimum maximum with
  | .error e => .error e
  | .ok b =>
    if !b then
      .error (ValidationError (some ("Value '" ++ pyStr value ++ "' must be between "
          ++ pyStr minimum ++ " and " ++ pyStr maximum ++ " (inclusive)")))
    else .ok ()

/-- `Validate.not_range_inclusive` from `__init__.py`. -/
def Validate.not_range_inclusive (value minimum maximum : PyVal) : Except PyExc Unit :=
  match Test.range_inclusive value minimum maximum with
  | .error e => .error e
  | .ok b =>
    if b then
      .error (ValidationError (some ("Value '" ++ pyStr value ++ "' must not be between "
          ++ pyStr minimum ++ " and " ++ pyStr maximum ++ " (inclusive)")))
    else .ok ()

/-- `Validate.range_non_inclusive` from `__init__.py`. -/
def Validate.range_non_inclusive (value minimum maximum : PyVal) : Except PyExc Unit :=
  match Test.range_non_inclusive value minimum maximum with
  | .error e => .error e
  | .ok b =>
    if !b then
      .error (ValidationError (some ("Value '" ++ pyStr value ++ "' must be between "
          ++ pyStr minimum ++ " and " ++ pyStr maximum ++ " (non-inclusive)")))
    else .ok ()

/-- `Validate.not_range_non_inclusive` from `__init__.py`. -/
def Validate.not_range_non_inclusive (value minimum maximum : PyVal) : Except PyExc Unit :=
  match Test.range_non_inclusive value minimum maximum with
  | .error e => .error e
  | .ok b =>
    if b then
      .error (ValidationError (some ("Value '" ++ pyStr value ++ "' must not be between "
          ++ pyStr minimum ++ " and " ++ pyStr maximum ++ " (non-inclusive)")))
    else .ok ()

/-- `Validate.eq` from `__init__.py`. -/
def Validate.eq (first second : PyVal) : Except PyExc Unit :=
  if !(Test.eq first second) then
    .error (ValidationError (some ("Value '" ++ pyStr first ++ "' must be equal to '"
        ++ pyStr second ++ "'")))
  else .ok ()

/-- `Validate.neq` from `__init__.py`. -/
def Validate.neq (first second : PyVal) : Except PyExc Unit :=
  if Test.eq first second then
    .error (ValidationError (some ("Value '" ++ pyStr first ++ "' must not be equal to '"
        ++ pyStr second ++ "'")))
  else .ok ()

/-- `Validate.gt` from `__init__.py`. -/
def Validate.gt (first second : PyVal) : Except PyExc Unit :=
  match Test.gt first second with
  | .error e => .error e
  | .ok b =>
    if !b then
      .error (ValidationError (some ("Value '" ++ pyStr first ++ "' must be greater than '"
          ++ pyStr second ++ "'")))
    else .ok ()

/-- `Validate.lte` from `__init__.py`. -/
def Validate.lte (first second : PyVal) : Except PyExc Unit :=
  match Test.lte first second with
  | .error e => .error e
  | .ok b =>
    if !b then
      .error (ValidationError (some ("Value '" ++ pyStr first ++ "' must be less than or equal to '"
          ++ pyStr second ++ "'")))
    else .ok ()

/-- `Validate.lt` from `__init__.py`. -/
def Validate.lt (first second : PyVal) : Except PyExc Unit :=
  match Test.lt first second with
  | .error e => .error e
  | .ok b =>
    if !b then
      .error (ValidationError (some ("Value '" ++ pyStr first ++ "' must be less than '"
          ++ pyStr second ++ "'")))
    else .ok ()

/-- `Validate.gte` from `__init__.py`. -/
def Validate.gte (first second : PyVal) : Except PyExc Unit :=
  match Test.gte first second with
  | .error e => .error e
  | .ok b =>
    if !b then
      .error (ValidationError (some ("Value '" ++ pyStr first
          ++ "' must be greater than or equal to '" ++ pyStr second ++ "'")))
    else .ok ()

end onecondition

namespace onecondition.test

/-- Modelled from the spec: the `onecondition.test` module imported by
`validate.py` is absent from the sources; §4.1 defines `none` as true when
the value is the absence-marker `None`. -/
def none (value : PyVal) : Bool :=
  decide (value = PyVal.none)

/-- Modelled from the spec: §4.1 defines `specific_type` as true when the
value's exact runtime type equals the expected type (no subtype match). -/
def specific_type (value : PyVal) (value_type : PyType) : Bool :=
  decide (value.typeOf = value_type)

/-- Modelled from the spec: §4.1 defines `instance` as true when the value's
runtime type equals the expected type or is a subtype of it. -/
def instance' (value : PyVal) (value_type : PyType) : Bool :=
  isSubclassOf value.typeOf value_type

/-- Modelled from the spec: §4.1 defines `zero` as `value == 0`. -/
def zero (value : PyVal) : Bool :=
  pyEq value (PyVal.int 0)

/-- Modelled from the spec: §4.1 defines `positive` as `value > 0`. -/
def positive (value : PyVal) : Except PyExc Bool :=
  pyGt value (PyVal.int 0)

/-- Modelled from the spec: §4.1 defines `negative` as `value < 0`. -/
def negative (value : PyVal) : Except PyExc Bool :=
  pyLt value (PyVal.int 0)

/-- Modelled from the spec: §4.1 defines `range_inclusive` as
`min ≤ value ≤ max`. -/
def range_inclusive (value minimum maximum : PyVal) : Except PyExc Bool :=
  match pyLe minimum value with
  | .error e => .error e
  | .ok b => if b then pyLe value maximum else .ok false

/-- Modelled from the spec: §4.1 defines `range_non_inclusive` as
`min < value < max`. -/
def range_non_inclusive (value minimum maximum : PyVal) : Except PyExc Bool :=
  match pyLt minimum value with
  | .error e => .error e
  | .ok b => if b then pyLt value maximum else .ok false

/-- Modelled from the spec: §4.1 defines `eq` as `a == b`. -/
def eq (first second : PyVal) : Bool :=
  pyEq first second

/-- Modelled from the spec: §4.1 defines `gt` as `a > b`. -/
def gt (first second : PyVal) : Except PyExc Bool :=
  pyGt first second

/-- Modelled from the spec: §4.1 defines `lte` as `a ≤ b`. -/
def lte (first second : PyVal) : Except PyExc Bool :=
  pyLe first second

/-- Modelled from the spec: §4.1 defines `lt` as `a < b`. -/
def lt (first second : PyVal) : Except PyExc Bool :=
  pyLt first second

/-- Modelled from the spec: §4.1 defines `gte` as `a ≥ b`. -/
def gte (first second : PyVal) : Except PyExc Bool :=
  pyGe first second

end onecondition.test

namespace onecondition.validate

/-- The `ValidationError` class of `validate.py`: a distinct class from the
one in `__init__.py`, also a subclass of `ValueError`, storing the message. -/
def ValidationError (message : Option String) : PyExc :=
  ⟨.validationError, message⟩

/-- `none` from `validate.py`: raises unless the value is `None`. -/
def none (value : PyVal) : Except PyExc Unit :=
  if !(test.none value) then
    .error (ValidationError (some ("Value '" ++ pyRepr value ++ "' must be None")))
  else .ok ()

/-- `not_none` from `validate.py`: raises when the value is `None`. -/
def not_none (value : PyVal) : Except PyExc Unit :=
  if test.none value then
    .error (ValidationError (some "Value must not be None"))
  else .ok ()

/-- `specific_type` from `validate.py`. -/
def specific_type (value : PyVal) (value_type : PyType) : Except PyExc Unit :=
  if !(test.specific_type value value_type) then
    .error (ValidationError (some ("Value '" ++ pyRepr value ++ "' must be of type "
        ++ typeStr value_type ++ ", not " ++ typeStr value.typeOf)))
  else .ok ()

/-- `not_specific_type` from `validate.py`. -/
def not_specific_type (value : PyVal) (value_type : PyType) : Except PyExc Unit :=
  if test.specific_type value value_type then
    .error (ValidationError (some ("Value '" ++ pyRepr value ++ "' must be not of type "
        ++ typeStr value_type)))
  else .ok ()

/-- `instance` from `validate.py`. -/
def instance' (value : PyVal) (value_type : PyType) : Except PyExc Unit :=
  if !(test.instance' value value_type) then
    .error (ValidationError (some ("Value '" ++ pyRepr value ++ "' must be an instance of "
        ++ typeStr value_type ++ ", not a " ++ typeStr value.typeOf)))
  else .ok ()

/-- `not_instance` from `validate.py`. -/
def not_instance (value : PyVal) (value_type : PyType) : Except PyExc Unit :=
  if test.instance' value value_type then
    .error (ValidationError (some ("Value '" ++ pyRepr value ++ "' must not be an instance of "
        ++ typeStr value_type)))
  else .ok ()

/-- `zero` from `validate.py`. -/
def zero (value : PyVal) : Except PyExc Unit :=
  if !(test.zero value) then
    .error (ValidationError (some ("Value '" ++ pyRepr value ++ "' must be zero")))
  else .ok ()

/-- `not_zero` from `validate.py`. -/
def not_zero (value : PyVal) : Except PyExc Unit :=
  if test.zero value then
    .error (ValidationError (some ("Value '" ++ pyRepr value ++ "' must not be zero")))
  else .ok ()

/-- `positive` from `validate.py`. -/
def positive (value : PyVal) : Except PyExc Unit :=
  match test.positive value with
  | .error e => .error e
  | .ok b =>
    if !b then
      .error (ValidationError (some ("Value '" ++ pyRepr value ++ "' must be positive (non-zero)")))
    else .ok ()

/-- `not_positive` from `validate.py`. -/
def not_positive (value : PyVal) : Except PyExc Unit :=
  match test.positive value with
  | .error e => .error e
  | .ok b =>
    if b then
      .error (ValidationError (some ("Value '" ++ pyRepr value
          ++ "' must not be positive (non-zero)")))
    else .ok ()

/-- `negative` from `validate.py`. -/
def negative (value : PyVal) : Except PyExc Unit :=
  match test.negative value with
  | .error e => .error e
  | .ok b =>
    if !b then
      .error (ValidationError (some ("Value '" ++ pyRepr value ++ "' must be negative (non-zero)")))
    else .ok ()

/-- `not_negative` from `validate.py`. -/
def not_negative (value : PyVal) : Except PyExc Unit :=
  match test.negative value with
  | .error e => .error e
  | .ok b =>
    if b then
      .error (ValidationError (some ("Value '" ++ pyRepr value
          ++ "' must not be negative (non-zero)")))
    else .ok ()

/-- `range_inclusive` from `validate.py`. -/
def range_inclusive (value minimum maximum : PyVal) : Except PyExc Unit :=
  match test.range_inclusive value minimum maximum with
  | .error e => .error e
  | .ok b =>
    if !b then
      .error (ValidationError (some ("Value '" ++ pyRepr value ++ "' must be between "
          ++ pyStr minimum ++ " and " ++ pyStr maximum ++ " (inclusive)")))
    else .ok ()

/-- `not_range_inclusive` from `validate.py`. -/
def not_range_inclusive (value minimum maximum : PyVal) : Except PyExc Unit :=
  match test.range_inclusive value minimum maximum with
  | .error e => .error e
  | .ok b =>
    if b then
      .error (ValidationError (some ("Value '" ++ pyRepr value ++ "' must not be between "
          ++ pyStr minimum ++ " and " ++ pyStr maximum ++ " (inclusive)")))
    else .ok ()

/-- `range_non_inclusive` from `validate.py`. -/
def range_non_inclusive (value minimum maximum : PyVal) : Except PyExc Unit :=
  match test.range_non_inclusive value minimum maximum with
  | .error e => .error e
  | .ok b =>
    if !b then
      .error (ValidationError (some ("Value '" ++ pyRepr value ++ "' must be between "
          ++ pyStr minimum ++ " and " ++ pyStr maximum ++ " (non-inclusive)")))
    else .ok ()

/-- `not_range_non_inclusive` from `validate.py`. -/
def not_range_non_inclusive (value minimum maximum : PyVal) : Except PyExc Unit :=
  match test.range_non_inclusive value minimum maximum with
  | .error e => .error e
  | .ok b =>
    if b then
      .error (ValidationError (some ("Value '" ++ pyRepr value ++ "' must not be between "
          ++ pyStr minimum ++ " and " ++ pyStr maximum ++ " (non-inclusive)")))
    else .ok ()

/-- `eq` from `validate.py`. -/
def eq (first second : PyVal) : Except PyExc Unit :=
  if !(test.eq first second) then
    .error (ValidationError (some ("Value '" ++ pyRepr first ++ "' must be equal to '"
        ++ pyStr second ++ "'")))
  else .ok ()

/-- `neq` from `validate.py`. -/
def neq (first second : PyVal) : Except PyExc Unit :=
  if test.eq first second then
    .error (ValidationError (some ("Value '" ++ pyRepr first ++ "' must not be equal to '"
        ++ pyStr second ++ "'")))
  else .ok ()

/-- `gt` from `validate.py`. -/
def gt (first second : PyVal) : Except PyExc Unit :=
  match test.gt first second with
  | .error e => .error e
  | .ok b =>
    if !b then
      .error (ValidationError (some ("Value '" ++ pyRepr first ++ "' must be greater than '"
          ++ pyStr second ++ "'")))
    else .ok ()

/-- `lt` from `validate.py`. -/
def lt (first second : PyVal) : Except PyExc Unit :=
  match test.lt first second with
  | .error e => .error e
  | .ok b =>
    if !b then
      .error (ValidationError (some ("Value '" ++ pyRepr first ++ "' must be less than '"
          ++ pyStr second ++ "'")))
    else .ok ()

/-- `gte` from `validate.py`. -/
def gte (first second : PyVal) : Except PyExc Unit :=
  match test.gte first second with
  | .error e => .error e
  | .ok b =>
    if !b then
      .error (ValidationError (some ("Value '" ++ pyRepr first
          ++ "' must be greater than or equal to '" ++ pyStr second ++ "'")))
    else .ok ()

/-- `lte` from `validate.py`. -/
def lte (first second : PyVal) : Except PyExc Unit :=
  match test.lte first second with
  | .error e => .error e
  | .ok b =>
    if !b then
      .error (ValidationError (some ("Value '" ++ pyRepr first
          ++ "' must be less than or equal to '" ++ pyStr second ++ "'")))
    else .ok ()

end onecondition.validate

/-- View of a call result that keeps only observable raise/return behaviour
and message text, forgetting which `ValidationError` class was raised (the two
module copies raise distinct classes of the same name). -/
def msgView (r : Except PyExc Unit) : Except (Option String) Unit :=
  match r with
  | .ok u => .ok u
  | .error e => .error e.message

/-- The call raises, if at all, only an exception of class `cls`, and that
exception is caught by an `except ValueError` handler. -/
def onlyRaisesVE (cls : PyType) (r : Except PyExc Unit) : Prop :=
  ∀ e, r = .error e → e.cls = cls ∧ catchesClass PyType.valueError e = true

lemma toRat_int_zero : toRat (PyVal.int 0) = some (0 : ℚ) := by
  norm_num [toRat]

lemma pyStr_eq_pyRepr {v : PyVal} {q : ℚ} (h : toRat v = some q) : pyStr v = pyRepr v := by
  cases v <;> simp [toRat] at h <;> rfl

lemma pyEq_num {a b : PyVal} {x y : ℚ} (ha : toRat a = some x) (hb : toRat b = some y) :
    pyEq a b = decide (x = y) := by
  unfold pyEq
  rw [ha, hb]

lemma pyLt_num {a b : PyVal} {x y : ℚ} (ha : toRat a = some x) (hb : toRat b = some y) :
    pyLt a b = .ok (decide (x < y)) := by
  unfold pyLt
  rw [ha, hb]

lemma pyLe_num {a b : PyVal} {x y : ℚ} (ha : toRat a = some x) (hb : toRat b = some y) :
    pyLe a b = .ok (decide (x ≤ y)) := by
  unfold pyLe
  rw [ha, hb]

lemma pyGt_num {a b : PyVal} {x y : ℚ} (ha : toRat a = some x) (hb : toRat b = some y) :
    pyGt a b = .ok (decide (y < x)) := by
  unfold pyGt
  rw [ha, hb]

lemma pyGe_num {a b : PyVal} {x y : ℚ} (ha : toRat a = some x) (hb : toRat b = some y) :
    pyGe a b = .ok (decide (y ≤ x)) := by
  unfold pyGe
  rw [ha, hb]

lemma Test_zero_num {v : PyVal} {q : ℚ} (h : toRat v = some q) :
    onecondition.Test.zero v = decide (q = 0) := by
  unfold onecondition.Test.zero
  rw [pyEq_num h toRat_int_zero]

lemma Test_positive_num {v : PyVal} {q : ℚ} (h : toRat v = some q) :
    onecondition.Test.positive v = .ok (decide (0 < q)) := by
  unfold onecondition.Test.positive
  rw [pyGt_num h toRat_int_zero]

lemma Test_negative_num {v : PyVal} {q : ℚ} (h : toRat v = some q) :
    onecondition.Test.negative v = .ok (decide (q < 0)) := by
  unfold onecondition.Test.negative
  rw [pyLt_num h toRat_int_zero]

lemma Test_eq_num {a b : PyVal} {x y : ℚ} (ha : toRat a = some x) (hb : toRat b = some y) :
    onecondition.Test.eq a b = decide (x = y) := by
  unfold onecondition.Test.eq
  rw [pyEq_num ha hb]

lemma Test_gt_num {a b : PyVal} {x y : ℚ} (ha : toRat a = some x) (hb : toRat b = some y) :
    onecondition.Test.gt a b = .ok (decide (y < x)) := by
  unfold onecondition.Test.gt
  rw [pyGt_num ha hb]

lemma Test_lt_num {a b : PyVal} {x y : ℚ} (ha : toRat a = some x) (hb : toRat b = some y) :
    onecondition.Test.lt a b = .ok (decide (x < y)) := by
  unfold onecondition.Test.lt
  rw [pyLt_num ha hb]

lemma Test_lte_num {a b : PyVal} {x y : ℚ} (ha : toRat a = some x) (hb : toRat b = some y) :
    onecondition.Test.lte a b = .ok (decide (x ≤ y)) := by
  unfold onecondition.Test.lte
  rw [pyLe_num ha hb]

lemma Test_gte_num {a b : PyVal} {x y : ℚ} (ha : toRat a = some x) (hb : toRat b = some y) :
    onecondition.Test.gte a b = .ok (decide (y ≤ x)) := by
  unfold onecondition.Test.gte
  rw [pyGe_num ha hb]

lemma Test_range_inclusive_num {v m M : PyVal} {qv qm qM : ℚ}
    (hv : toRat v = some qv) (hm : toRat m = some qm) (hM : toRat M = some qM) :
    onecondition.Test.range_inclusive v m M = .ok (decide (qm ≤ qv) && decide (qv ≤ qM)) := by
  unfold onecondition.Test.range_inclusive
  rw [pyLe_num hm hv]
  cases hb : decide (qm ≤ qv)
  · simp
  · simp [pyLe_num hv hM]

lemma Test_range_non_inclusive_num {v m M : PyVal} {qv qm qM : ℚ}
    (hv : toRat v = some qv) (hm : toRat m = some qm) (hM : toRat M = some qM) :
    onecondition.Test.range_non_inclusive v m M = .ok (decide (qm < qv) && decide (qv < qM)) := by
  unfold onecondition.Test.range_non_inclusive
  rw [pyLt_num hm hv]
  cases hb : decide (qm < qv)
  · simp
  · simp [pyLt_num hv hM]

lemma test_none_eq : onecondition.test.none = onecondition.Test.none := rfl

lemma test_specific_type_eq : onecondition.test.specific_type = onecondition.Test.type := rfl

lemma test_instance_eq : onecondition.test.instance' = onecondition.Test.instance' := rfl

lemma test_zero_eq : onecondition.test.zero = onecondition.Test.zero := rfl

lemma test_positive_eq : onecondition.test.positive = onecondition.Test.positive := rfl

lemma test_negative_eq : onecondition.test.negative = onecondition.Test.negative := rfl

lemma test_range_inclusive_eq :
    onecondition.test.range_inclusive = onecondition.Test.range_inclusive := rfl

lemma test_range_non_inclusive_eq :
    onecondition.test.range_non_inclusive = onecondition.Test.range_non_inclusive := rfl

lemma test_eq_eq : onecondition.test.eq = onecondition.Test.eq := rfl

lemma test_gt_eq : onecondition.test.gt = onecondition.Test.gt := rfl

lemma test_lt_eq : onecondition.test.lt = onecondition.Test.lt := rfl

lemma test_gte_eq : onecondition.test.gte = onecondition.Test.gte := rfl

lemma test_lte_eq : onecondition.test.lte = onecondition.Test.lte := rfl

lemma returnsNormally_ite (c : Bool) (e₁ e₂ : PyExc) :
    returnsNormally (if c then Except.error e₁ else Except.ok ()) =
    returnsNormally (if c then Except.error e₂ else Except.ok ()) := by
  cases c <;> rfl

lemma onlyRaisesVE_ite (cls : PyType) (c : Bool) (m : Option String)
    (h : isSubclassOf cls PyType.valueError = true) :
    onlyRaisesVE cls (if c then Except.error ⟨cls, m⟩ else Except.ok ()) := by
  intro e he
  cases c
  · exact absurd he (by simp)
  · simp only [if_true] at he
    injection he with h'
    subst h'
    exact ⟨rfl, by simp [catchesClass, h]⟩

/-- C1: the duality law `V(x)` returns normally iff `P(x)` is true fails in
the code: `Validate.none` in `__init__.py` raises exactly when `Test.none` is
true (its condition is inverted), while the `validate.py` copy obeys the law
at the same inputs.  Evaluation of both copies at `None` and at `""`. -/
theorem claim1_init_none_duality_violated :
    onecondition.Test.none PyVal.none = true ∧
    returnsNormally (onecondition.Validate.none PyVal.none) = false ∧
    onecondition.Test.none (PyVal.str "") = false ∧
    returnsNormally (onecondition.Validate.none (PyVal.str "")) = true ∧
    returnsNormally (onecondition.validate.none PyVal.none) = true ∧
    returnsNormally (onecondition.validate.none (PyVal.str "")) = false :=
  ⟨rfl, rfl, rfl, rfl, rfl, rfl⟩

/-- C2: the predicate facts hold (`none(None)` is true, `none("")` is false)
and `validate.py`'s `none("")` raises with a message containing
`must be None`, but the cited `Validate.none` of `__init__.py` does the
opposite of the claim: it returns normally on `""` and raises on `None`. -/
theorem claim2_init_none_behavior :
    onecondition.Test.none PyVal.none = true ∧
    onecondition.Test.none (PyVal.str "") = false ∧
    onecondition.Validate.none (PyVal.str "") = .ok () ∧
    onecondition.Validate.none PyVal.none =
      .error (onecondition.ValidationError (some "Value 'None' must be None")) ∧
    onecondition.validate.none (PyVal.str "") =
      .error (onecondition.validate.ValidationError (some "Value '''' must be None")) ∧
    (∃ pre post, "Value '''' must be None" = pre ++ "must be None" ++ post) :=
  ⟨rfl, rfl, rfl, rfl, rfl, ⟨"Value '''' ", "", rfl⟩⟩

/-- C3: the two copies are NOT behaviourally equivalent.  On the shared name
`none`, `validate.py` returns normally at `None` while `__init__.py` raises;
on `not_positive` both raise at `1` but with different message texts
(`... must not be positive` vs `... must not be positive (non-zero)`); on
`instance` both raise at `""` but the embedded value is rendered `str`-style
in one copy and `repr`-style in the other. -/
theorem claim3_copies_not_equivalent :
    onecondition.validate.none PyVal.none = .ok () ∧
    onecondition.Validate.none PyVal.none =
      .error (onecondition.ValidationError (some "Value 'None' must be None")) ∧
    onecondition.Validate.not_positive (PyVal.int 1) =
      .error ⟨.initValidationError, some "Value '1' must not be positive"⟩ ∧
    onecondition.validate.not_positive (PyVal.int 1) =
      .error ⟨.validationError, some "Value '1' must not be positive (non-zero)"⟩ ∧
    onecondition.Validate.instance' (PyVal.str "") PyType.intT =
      .error ⟨.initValidationError,
        some "Value '' must be an instance of <class 'int'>, not a <class 'str'>"⟩ ∧
    onecondition.validate.instance' (PyVal.str "") PyType.intT =
      .error ⟨.validationError,
        some "Value '''' must be an instance of <class 'int'>, not a <class 'str'>"⟩ :=
  ⟨rfl, rfl, rfl, rfl, rfl, rfl⟩

/-- C3 (amended): for every validator name present in both copies other than
`none` and `not_none`, the copies raise on exactly the same inputs; moreover
for a numeric failing value the raised messages are identical for every such
name except `not_positive` and `not_negative`, whose `validate.py` messages
carry an extra ` (non-zero)` suffix.  (Non-numeric failing values are
rendered `str`-style by `__init__.py` and `repr`-style by `validate.py`, and
the two copies raise distinct `ValidationError` classes, which `msgView`
forgets.) -/
theorem claim3_copies_equiv_amended :
    (∀ v q, toRat v = some q →
      msgView (onecondition.Validate.zero v) = msgView (onecondition.validate.zero v)) ∧
    (∀ v q, toRat v = some q →
      msgView (onecondition.Validate.not_zero v) = msgView (onecondition.validate.not_zero v)) ∧
    (∀ v q, toRat v = some q →
      msgView (onecondition.Validate.positive v) = msgView (onecondition.validate.positive v)) ∧
    (∀ v q, toRat v = some q →
      msgView (onecondition.Validate.negative v) = msgView (onecondition.validate.negative v)) ∧
    (∀ v m M q, toRat v = some q →
      msgView (onecondition.Validate.range_inclusive v m M) =
        msgView (onecondition.validate.range_inclusive v m M)) ∧
    (∀ v m M q, toRat v = some q →
      msgView (onecondition.Validate.not_range_inclusive v m M) =
        msgView (onecondition.validate.not_range_inclusive v m M)) ∧
    (∀ v m M q, toRat v = some q →
      msgView (onecondition.Validate.range_non_inclusive v m M) =
        msgView (onecondition.validate.range_non_inclusive v m M)) ∧
    (∀ v m M q, toRat v = some q →
      msgView (onecondition.Validate.not_range_non_inclusive v m M) =
        msgView (onecondition.validate.not_range_non_inclusive v m M)) ∧
    (∀ v w q, toRat v = some q →
      msgView (onecondition.Validate.eq v w) = msgView (onecondition.validate.eq v w)) ∧
    (∀ v w q, toRat v = some q →
      msgView (onecondition.Validate.neq v w) = msgView (onecondition.validate.neq v w)) ∧
    (∀ v w q, toRat v = some q →
      msgView (onecondition.Validate.gt v w) = msgView (onecondition.validate.gt v w)) ∧
    (∀ v w q, toRat v = some q →
      msgView (onecondition.Validate.lt v w) = msgView (onecondition.validate.lt v w)) ∧
    (∀ v w q, toRat v = some q →
      msgView (onecondition.Validate.gte v w) = msgView (onecondition.validate.gte v w)) ∧
    (∀ v w q, toRat v = some q →
      msgView (onecondition.Validate.lte v w) = msgView (onecondition.validate.lte v w)) ∧
    (∀ v t q, toRat v = some q →
      msgView (onecondition.Validate.instance' v t) =
        msgView (onecondition.validate.instance' v t)) ∧
    (∀ v t q, toRat v = some q →
      msgView (onecondition.Validate.not_instance v t) =
        msgView (onecondition.validate.not_instance v t)) ∧
    (∀ v t, returnsNormally (onecondition.Validate.instance' v t) =
      returnsNormally (onecondition.validate.instance' v t)) ∧
    (∀ v t, returnsNormally (onecondition.Validate.not_instance v t) =
      returnsNormally (onecondition.validate.not_instance v t)) ∧
    (∀ v, returnsNormally (onecondition.Validate.zero v) =
      returnsNormally (onecondition.validate.zero v)) ∧
    (∀ v, returnsNormally (onecondition.Validate.not_zero v) =
      returnsNormally (onecondition.validate.not_zero v)) ∧
    (∀ v, returnsNormally (onecondition.Validate.positive v) =
      returnsNormally (onecondition.validate.positive v)) ∧
    (∀ v, returnsNormally (onecondition.Validate.not_positive v) =
      returnsNormally (onecondition.validate.not_positive v)) ∧
    (∀ v, returnsNormally (onecondition.Validate.negative v) =
      returnsNormally (onecondition.validate.negative v)) ∧
    (∀ v, returnsNormally (onecondition.Validate.not_negative v) =
      returnsNormally (onecondition.validate.not_negative v)) ∧
    (∀ v m M, returnsNormally (onecondition.Validate.range_inclusive v m M) =
      returnsNormally (onecondition.validate.range_inclusive v m M)) ∧
    (∀ v m M, returnsNormally (onecondition.Validate.not_range_inclusive v m M) =
      returnsNormally (onecondition.validate.not_range_inclusive v m M)) ∧
    (∀ v m M, returnsNormally (onecondition.Validate.range_non_inclusive v m M) =
      returnsNormally (onecondition.validate.range_non_inclusive v m M)) ∧
    (∀ v m M, returnsNormally (onecondition.Validate.not_range_non_inclusive v m M) =
      returnsNormally (onecondition.validate.not_range_non_inclusive v m M)) ∧
    (∀ v w, returnsNormally (onecondition.Validate.eq v w) =
      returnsNormally (onecondition.validate.eq v w)) ∧
    (∀ v w, returnsNormally (onecondition.Validate.neq v w) =
      returnsNormally (onecondition.validate.neq v w)) ∧
    (∀ v w, returnsNormally (onecondition.Validate.gt v w) =
      returnsNormally (onecondition.validate.gt v w)) ∧
    (∀ v w, returnsNormally (onecondition.Validate.lt v w) =
      returnsNormally (onecondition.validate.lt v w)) ∧
    (∀ v w, returnsNormally (onecondition.Validate.gte v w) =
      returnsNormally (onecondition.validate.gte v w)) ∧
    (∀ v w, returnsNormally (onecondition.Validate.lte v w) =
      returnsNormally (onecondition.validate.lte v w)) := by
  refine ⟨?_, ?_, ?_, ?_, ?_, ?_, ?_, ?_, ?_, ?_, ?_, ?_, ?_, ?_, ?_, ?_, ?_, ?_,
    ?_, ?_, ?_, ?_, ?_, ?_, ?_, ?_, ?_, ?_, ?_, ?_, ?_, ?_, ?_, ?_⟩
  · intro v q h
    unfold onecondition.Validate.zero onecondition.validate.zero
    rw [test_zero_eq, pyStr_eq_pyRepr h]
    cases hc : onecondition.Test.zero v <;> rfl
  · intro v q h
    unfold onecondition.Validate.not_zero onecondition.validate.not_zero
    rw [test_zero_eq, pyStr_eq_pyRepr h]
    cases hc : onecondition.Test.zero v <;> rfl
  · intro v q h
    unfold onecondition.Validate.positive onecondition.validate.positive
    rw [test_positive_eq, pyStr_eq_pyRepr h]
    cases hp : onecondition.Test.positive v with
    | error e => rfl
    | ok b => cases b <;> rfl
  · intro v q h
    unfold onecondition.Validate.negative onecondition.validate.negative
    rw [test_negative_eq, pyStr_eq_pyRepr h]
    cases hp : onecondition.Test.negative v with
    | error e => rfl
    | ok b => cases b <;> rfl
  · intro v m M q h
    unfold onecondition.Validate.range_inclusive onecondition.validate.range_inclusive
    rw [test_range_inclusive_eq, pyStr_eq_pyRepr h]
    cases hp : onecondition.Test.range_inclusive v m M with
    | error e => rfl
    | ok b => cases b <;> rfl
  · intro v m M q h
    unfold onecondition.Validate.not_range_inclusive onecondition.validate.not_range_inclusive
    rw [test_range_inclusive_eq, pyStr_eq_pyRepr h]
    cases hp : onecondition.Test.range_inclusive v m M with
    | error e => rfl
    | ok b => cases b <;> rfl
  · intro v m M q h
    unfold onecondition.Validate.range_non_inclusive onecondition.validate.range_non_inclusive
    rw [test_range_non_inclusive_eq, pyStr_eq_pyRepr h]
    cases hp : onecondition.Test.range_non_inclusive v m M with
    | error e => rfl
    | ok b => cases b <;> rfl
  · intro v m M q h
    unfold onecondition.Validate.not_range_non_inclusive
      onecondition.validate.not_range_non_inclusive
    rw [test_range_non_inclusive_eq, pyStr_eq_pyRepr h]
    cases hp : onecondition.Test.range_non_inclusive v m M with
    | error e => rfl
    | ok b => cases b <;> rfl
  · intro v w q h
    unfold onecondition.Validate.eq onecondition.validate.eq
    rw [test_eq_eq, pyStr_eq_pyRepr h]
    cases hc : onecondition.Test.eq v w <;> rfl
  · intro v w q h
    unfold onecondition.Validate.neq onecondition.validate.neq
    rw [test_eq_eq, pyStr_eq_pyRepr h]
    cases hc : onecondition.Test.eq v w <;> rfl
  · intro v w q h
    unfold onecondition.Validate.gt onecondition.validate.gt
    rw [test_gt_eq, pyStr_eq_pyRepr h]
    cases hp : onecondition.Test.gt v w with
    | error e => rfl
    | ok b => cases b <;> rfl
  · intro v w q h
    unfold onecondition.Validate.lt onecondition.validate.lt
    rw [test_lt_eq, pyStr_eq_pyRepr h]
    cases hp : onecondition.Test.lt v w with
    | error e => rfl
    | ok b => cases b <;> rfl
  · intro v w q h
    unfold onecondition.Validate.gte onecondition.validate.gte
    rw [test_gte_eq, pyStr_eq_pyRepr h]
    cases hp : onecondition.Test.gte v w with
    | error e => rfl
    | ok b => cases b <;> rfl
  · intro v w q h
    unfold onecondition.Validate.lte onecondition.validate.lte
    rw [test_lte_eq, pyStr_eq_pyRepr h]
    cases hp : onecondition.Test.lte v w with
    | error e => rfl
    | ok b => cases b <;> rfl
  · intro v t q h
    unfold onecondition.Validate.instance' onecondition.validate.instance'
    rw [test_instance_eq, pyStr_eq_pyRepr h]
    cases hc : onecondition.Test.instance' v t <;> rfl
  · intro v t q h
    unfold onecondition.Validate.not_instance onecondition.validate.not_instance
    rw [test_instance_eq, pyStr_eq_pyRepr h]
    cases hc : onecondition.Test.instance' v t <;> rfl
  · intro v t
    unfold onecondition.Validate.instance' onecondition.validate.instance'
    rw [test_instance_eq]
    exact returnsNormally_ite _ _ _
  · intro v t
    unfold onecondition.Validate.not_instance onecondition.validate.not_instance
    rw [test_instance_eq]
    exact returnsNormally_ite _ _ _
  · intro v
    unfold onecondition.Validate.zero onecondition.validate.zero
    rw [test_zero_eq]
    exact returnsNormally_ite _ _ _
  · intro v
    unfold onecondition.Validate.not_zero onecondition.validate.not_zero
    rw [test_zero_eq]
    exact returnsNormally_ite _ _ _
  · intro v
    unfold onecondition.Validate.positive onecondition.validate.positive
    rw [test_positive_eq]
    cases hp : onecondition.Test.positive v with
    | error e => rfl
    | ok b => cases b <;> rfl
  · intro v
    unfold onecondition.Validate.not_positive onecondition.validate.not_positive
    rw [test_positive_eq]
    cases hp : onecondition.Test.positive v with
    | error e => rfl
    | ok b => cases b <;> rfl
  · intro v
    unfold onecondition.Validate.negative onecondition.validate.negative
    rw [test_negative_eq]
    cases hp : onecondition.Test.negative v with
    | error e => rfl
    | ok b => cases b <;> rfl
  · intro v
    unfold onecondition.Validate.not_negative onecondition.validate.not_negative
    rw [test_negative_eq]
    cases hp : onecondition.Test.negative v with
    | error e => rfl
    | ok b => cases b <;> rfl
  · intro v m M
    unfold onecondition.Validate.range_inclusive onecondition.validate.range_inclusive
    rw [test_range_inclusive_eq]
    cases hp : onecondition.Test.range_inclusive v m M with
    | error e => rfl
    | ok b => cases b <;> rfl
  · intro v m M
    unfold onecondition.Validate.not_range_inclusive onecondition.validate.not_range_inclusive
    rw [test_range_inclusive_eq]
    cases hp : onecondition.Test.range_inclusive v m M with
    | error e => rfl
    | ok b => cases b <;> rfl
  · intro v m M
    unfold onecondition.Validate.range_non_inclusive onecondition.validate.range_non_inclusive
    rw [test_range_non_inclusive_eq]
    cases hp : onecondition.Test.range_non_inclusive v m M with
    | error e => rfl
    | ok b => cases b <;> rfl
  · intro v m M
    unfold onecondition.Validate.not_range_non_inclusive
      onecondition.validate.not_range_non_inclusive
    rw [test_range_non_inclusive_eq]
    cases hp : onecondition.Test.range_non_inclusive v m M with
    | error e => rfl
    | ok b => cases b <;> rfl
  · intro v w
    unfold onecondition.Validate.eq onecondition.validate.eq
    rw [test_eq_eq]
    exact returnsNormally_ite _ _ _
  · intro v w
    unfold onecondition.Validate.neq onecondition.validate.neq
    rw [test_eq_eq]
    exact returnsNormally_ite _ _ _
  · intro v w
    unfold onecondition.Validate.gt onecondition.validate.gt
    rw [test_gt_eq]
    cases hp : onecondition.Test.gt v w with
    | error e => rfl
    | ok b => cases b <;> rfl
  · intro v w
    unfold onecondition.Validate.lt onecondition.validate.lt
    rw [test_lt_eq]
    cases hp : onecondition.Test.lt v w with
    | error e => rfl
    | ok b => cases b <;> rfl
  · intro v w
    unfold onecondition.Validate.gte onecondition.validate.gte
    rw [test_gte_eq]
    cases hp : onecondition.Test.gte v w with
    | error e => rfl
    | ok b => cases b <;> rfl
  · intro v w
    unfold onecondition.Validate.lte onecondition.validate.lte
    rw [test_lte_eq]
    cases hp : onecondition.Test.lte v w with
    | error e => rfl
    | ok b => cases b <;> rfl

/-- C3 amended, instantiated: at the numeric input `5` the two `zero`
validators give the same observable result. -/
theorem claim3_copies_equiv_amended_witness :
    toRat (PyVal.int 5) = some 5 ∧
    msgView (onecondition.Validate.zero (PyVal.int 5)) =
      msgView (onecondition.validate.zero (PyVal.int 5)) :=
  ⟨rfl, claim3_copies_equiv_amended.1 (PyVal.int 5) 5 rfl⟩

/-- C4: for every positive/negated validator pair, in both copies, the
negated form raises exactly when the positive form returns normally and
vice versa (numeric-typed pairs quantified over their documented numeric
domain).  This holds even for the inverted `none`/`not_none` pair of
`__init__.py`, whose two conditions are inverted together. -/
theorem claim4_negation_pairs_complement :
    (∀ v, returnsNormally (onecondition.Validate.not_none v) =
      !(returnsNormally (onecondition.Validate.none v))) ∧
    (∀ v t, returnsNormally (onecondition.Validate.not_type v t) =
      !(returnsNormally (onecondition.Validate.type v t))) ∧
    (∀ v t, returnsNormally (onecondition.Validate.not_instance v t) =
      !(returnsNormally (onecondition.Validate.instance' v t))) ∧
    (∀ v, returnsNormally (onecondition.Validate.not_zero v) =
      !(returnsNormally (onecondition.Validate.zero v))) ∧
    (∀ v q, toRat v = some q →
      returnsNormally (onecondition.Validate.not_positive v) =
        !(returnsNormally (onecondition.Validate.positive v))) ∧
    (∀ v q, toRat v = some q →
      returnsNormally (onecondition.Validate.not_negative v) =
        !(returnsNormally (onecondition.Validate.negative v))) ∧
    (∀ v m M qv qm qM, toRat v = some qv → toRat m = some qm → toRat M = some qM →
      returnsNormally (onecondition.Validate.not_range_inclusive v m M) =
        !(returnsNormally (onecondition.Validate.range_inclusive v m M))) ∧
    (∀ v m M qv qm qM, toRat v = some qv → toRat m = some qm → toRat M = some qM →
      returnsNormally (onecondition.Validate.not_range_non_inclusive v m M) =
        !(returnsNormally (onecondition.Validate.range_non_inclusive v m M))) ∧
    (∀ v w, returnsNormally (onecondition.Validate.neq v w) =
      !(returnsNormally (onecondition.Validate.eq v w))) ∧
    (∀ v, returnsNormally (onecondition.validate.not_none v) =
      !(returnsNormally (onecondition.validate.none v))) ∧
    (∀ v t, returnsNormally (onecondition.validate.not_specific_type v t) =
      !(returnsNormally (onecondition.validate.specific_type v t))) ∧
    (∀ v t, returnsNormally (onecondition.validate.not_instance v t) =
      !(returnsNormally (onecondition.validate.instance' v t))) ∧
    (∀ v, returnsNormally (onecondition.validate.not_zero v) =
      !(returnsNormally (onecondition.validate.zero v))) ∧
    (∀ v q, toRat v = some q →
      returnsNormally (onecondition.validate.not_positive v) =
        !(returnsNormally (onecondition.validate.positive v))) ∧
    (∀ v q, toRat v = some q →
      returnsNormally (onecondition.validate.not_negative v) =
        !(returnsNormally (onecondition.validate.negative v))) ∧
    (∀ v m M qv qm qM, toRat v = some qv → toRat m = some qm → toRat M = some qM →
      returnsNormally (onecondition.validate.not_range_inclusive v m M) =
        !(returnsNormally (onecondition.validate.range_inclusive v m M))) ∧
    (∀ v m M qv qm qM, toRat v = some qv → toRat m = some qm → toRat M = some qM →
      returnsNormally (onecondition.validate.not_range_non_inclusive v m M) =
        !(returnsNormally (onecondition.validate.range_non_inclusive v m M))) ∧
    (∀ v w, returnsNormally (onecondition.validate.neq v w) =
      !(returnsNormally (onecondition.validate.eq v w))) := by
  refine ⟨?_, ?_, ?_, ?_, ?_, ?_, ?_, ?_, ?_, ?_, ?_, ?_, ?_, ?_, ?_, ?_, ?_, ?_⟩
  · intro v
    unfold onecondition.Validate.not_none onecondition.Validate.none
    cases hc : onecondition.Test.none v <;> rfl
  · intro v t
    unfold onecondition.Validate.not_type onecondition.Validate.type
    cases hc : onecondition.Test.type v t <;> rfl
  · intro v t
    unfold onecondition.Validate.not_instance onecondition.Validate.instance'
    cases hc : onecondition.Test.instance' v t <;> rfl
  · intro v
    unfold onecondition.Validate.not_zero onecondition.Validate.zero
    cases hc : onecondition.Test.zero v <;> rfl
  · intro v q h
    unfold onecondition.Validate.not_positive onecondition.Validate.positive
    rw [Test_positive_num h]
    cases hd : decide (0 < q) <;> rfl
  · intro v q h
    unfold onecondition.Validate.not_negative onecondition.Validate.negative
    rw [Test_negative_num h]
    cases hd : decide (q < 0) <;> rfl
  · intro v m M qv qm qM hv hm hM
    unfold onecondition.Validate.not_range_inclusive onecondition.Validate.range_inclusive
    rw [Test_range_inclusive_num hv hm hM]
    cases hb : (decide (qm ≤ qv) && decide (qv ≤ qM)) <;> rfl
  · intro v m M qv qm qM hv hm hM
    unfold onecondition.Validate.not_range_non_inclusive
      onecondition.Validate.range_non_inclusive
    rw [Test_range_non_inclusive_num hv hm hM]
    cases hb : (decide (qm < qv) && decide (qv < qM)) <;> rfl
  · intro v w
    unfold onecondition.Validate.neq onecondition.Validate.eq
    cases hc : onecondition.Test.eq v w <;> rfl
  · intro v
    unfold onecondition.validate.not_none onecondition.validate.none
    rw [test_none_eq]
    cases hc : onecondition.Test.none v <;> rfl
  · intro v t
    unfold onecondition.validate.not_specific_type onecondition.validate.specific_type
    rw [test_specific_type_eq]
    cases hc : onecondition.Test.type v t <;> rfl
  · intro v t
    unfold onecondition.validate.not_instance onecondition.validate.instance'
    rw [test_instance_eq]
    cases hc : onecondition.Test.instance' v t <;> rfl
  · intro v
    unfold onecondition.validate.not_zero onecondition.validate.zero
    rw [test_zero_eq]
    cases hc : onecondition.Test.zero v <;> rfl
  · intro v q h
    unfold onecondition.validate.not_positive onecondition.validate.positive
    rw [test_positive_eq, Test_positive_num h]
    cases hd : decide (0 < q) <;> rfl
  · intro v q h
    unfold onecondition.validate.not_negative onecondition.validate.negative
    rw [test_negative_eq, Test_negative_num h]
    cases hd : decide (q < 0) <;> rfl
  · intro v m M qv qm qM hv hm hM
    unfold onecondition.validate.not_range_inclusive onecondition.validate.range_inclusive
    rw [test_range_inclusive_eq, Test_range_inclusive_num hv hm hM]
    cases hb : (decide (qm ≤ qv) && decide (qv ≤ qM)) <;> rfl
  · intro v m M qv qm qM hv hm hM
    unfold onecondition.validate.not_range_non_inclusive
      onecondition.validate.range_non_inclusive
    rw [test_range_non_inclusive_eq, Test_range_non_inclusive_num hv hm hM]
    cases hb : (decide (qm < qv) && decide (qv < qM)) <;> rfl
  · intro v w
    unfold onecondition.validate.neq onecondition.validate.eq
    rw [test_eq_eq]
    cases hc : onecondition.Test.eq v w <;> rfl

/-- C4, instantiated: at the numeric input `1`, `Validate.not_positive`
raises exactly because `Validate.positive` returns normally. -/
theorem claim4_negation_pairs_complement_witness :
    toRat (PyVal.int 1) = some 1 ∧
    returnsNormally (onecondition.Validate.not_positive (PyVal.int 1)) =
      !(returnsNormally (onecondition.Validate.positive (PyVal.int 1))) :=
  ⟨rfl, (claim4_negation_pairs_complement.2.2.2.2.1) (PyVal.int 1) 1 rfl⟩

/-- C5: whenever a `none` validator fails (in either copy) its message is
exactly `Value '<repr>' must be None` with `<repr>` the repr-rendering of the
failing value, and whenever a `not_none` validator fails its message is
exactly `Value must not be None`.  (`__init__.py`'s `Validate.none` renders
with `str`, but it only ever fails at `None`, where `str` and `repr`
coincide.) -/
theorem claim5_none_message_templates :
    (∀ v e, onecondition.validate.none v = .error e →
      e.message = some ("Value '" ++ pyRepr v ++ "' must be None")) ∧
    (∀ v e, onecondition.validate.not_none v = .error e →
      e.message = some "Value must not be None") ∧
    (∀ v e, onecondition.Validate.none v = .error e →
      e.message = some ("Value '" ++ pyRepr v ++ "' must be None")) ∧
    (∀ v e, onecondition.Validate.not_none v = .error e →
      e.message = some "Value must not be None") := by
  refine ⟨?_, ?_, ?_, ?_⟩
  · intro v e h
    unfold onecondition.validate.none at h
    split at h
    · injection h with h'
      subst h'
      rfl
    · exact absurd h (by simp)
  · intro v e h
    unfold onecondition.validate.not_none at h
    split at h
    · injection h with h'
      subst h'
      rfl
    · exact absurd h (by simp)
  · intro v e h
    unfold onecondition.Validate.none at h
    split at h
    case isTrue hc =>
      injection h with h'
      subst h'
      have hv : v = PyVal.none := of_decide_eq_true hc
      subst hv
      rfl
    case isFalse hc => exact absurd h (by simp)
  · intro v e h
    unfold onecondition.Validate.not_none at h
    split at h
    · injection h with h'
      subst h'
      rfl
    · exact absurd h (by simp)

/-- C5, instantiated: `validate.none("")` raises with message
`Value '<repr of "">' must be None`. -/
theorem claim5_none_message_templates_witness :
    (⟨PyType.validationError, some "Value '''' must be None"⟩ : PyExc).message =
      some ("Value '" ++ pyRepr (PyVal.str "") ++ "' must be None") :=
  claim5_none_message_templates.1 (PyVal.str "")
    ⟨PyType.validationError, some "Value '''' must be None"⟩ rfl

/-- C6 fails as stated: without the (specification-noted) side condition
`min ≤ max`, `range_inclusive(2, 2, 1)` is false although `v == m` is true,
so the claimed characterisation's right-hand side holds while the predicate
is false. -/
theorem claim6_range_counterexample :
    ¬(onecondition.Test.range_inclusive (PyVal.int 2) (PyVal.int 2) (PyVal.int 1) = .ok true ↔
      (pyEq (PyVal.int 2) (PyVal.int 2) = true ∨ pyEq (PyVal.int 2) (PyVal.int 1) = true ∨
        (pyLt (PyVal.int 2) (PyVal.int 2) = .ok true ∧
          pyLt (PyVal.int 2) (PyVal.int 1) = .ok true))) := by
  intro h
  have ha := h.mpr (Or.inl rfl)
  rw [show onecondition.Test.range_inclusive (PyVal.int 2) (PyVal.int 2) (PyVal.int 1) =
      .ok false from rfl] at ha
  exact absurd ha (by simp)

/-- C6 (amended): for numeric `v`, `m`, `M` with `m ≤ M`,
`range_inclusive(v, m, M)` is true iff `v = m`, `v = M`, or `m < v < M`;
and `range_non_inclusive(v, m, M)` is true iff `m < v < M` (false at the
boundary cases). -/
theorem claim6_range_characterization_amended :
    ∀ v m M qv qm qM, toRat v = some qv → toRat m = some qm → toRat M = some qM →
      qm ≤ qM →
      (onecondition.Test.range_inclusive v m M = .ok true ↔
        (qv = qm ∨ qv = qM ∨ (qm < qv ∧ qv < qM))) ∧
      (onecondition.Test.range_non_inclusive v m M = .ok true ↔ (qm < qv ∧ qv < qM)) := by
  intro v m M qv qm qM hv hm hM hmM
  rw [Test_range_inclusive_num hv hm hM, Test_range_non_inclusive_num hv hm hM]
  constructor
  · simp only [Except.ok.injEq, Bool.and_eq_true, decide_eq_true_eq]
    constructor
    · rintro ⟨h1, h2⟩
      rcases eq_or_lt_of_le h1 with he | hl
      · exact Or.inl he.symm
      · rcases eq_or_lt_of_le h2 with he2 | hl2
        · exact Or.inr (Or.inl he2)
        · exact Or.inr (Or.inr ⟨hl, hl2⟩)
    · rintro (rfl | rfl | ⟨h1, h2⟩)
      · exact ⟨le_refl _, hmM⟩
      · exact ⟨hmM, le_refl _⟩
      · exact ⟨h1.le, h2.le⟩
  · simp only [Except.ok.injEq, Bool.and_eq_true, decide_eq_true_eq]

/-- C6 amended, instantiated: `range_inclusive(1, 0, 1)` is true (boundary
case `v = M` with ordered bounds). -/
theorem claim6_range_characterization_amended_witness :
    onecondition.Test.range_inclusive (PyVal.int 1) (PyVal.int 0) (PyVal.int 1) = .ok true :=
  (claim6_range_characterization_amended (PyVal.int 1) (PyVal.int 0) (PyVal.int 1) 1 0 1
    rfl rfl rfl (by norm_num)).1.mpr (Or.inr (Or.inl rfl))

/-- C7: for a proper subtype `S` of `T` and a value whose runtime type is
`S`, the exact-type predicate is false while the instance predicate is true;
when the runtime type is exactly `T`, both are true. -/
theorem claim7_exact_type_vs_instance :
    (∀ S T : PyType, isSubclassOf S T = true → S ≠ T →
      ∀ v : PyVal, v.typeOf = S →
        onecondition.Test.type v T = false ∧ onecondition.Test.instance' v T = true) ∧
    (∀ (v : PyVal) (T : PyType), v.typeOf = T →
      onecondition.Test.type v T = true ∧ onecondition.Test.instance' v T = true) := by
  constructor
  · intro S T hsub hne v hv
    constructor
    · unfold onecondition.Test.type
      rw [hv]
      exact decide_eq_false hne
    · unfold onecondition.Test.instance'
      rw [hv]
      exact hsub
  · intro v T hv
    constructor
    · unfold onecondition.Test.type
      rw [hv]
      exact decide_eq_true rfl
    · unfold onecondition.Test.instance'
      rw [hv]
      unfold isSubclassOf
      simp
/-- C7, instantiated at the proper subtype `bool` of `int` (Python's `bool`
is a subclass of `int`) and the value `True`. -/
theorem claim7_exact_type_vs_instance_witness :
    isSubclassOf PyType.boolT PyType.intT = true ∧ PyType.boolT ≠ PyType.intT ∧
    onecondition.Test.type (PyVal.bool true) PyType.intT = false ∧
    onecondition.Test.instance' (PyVal.bool true) PyType.intT = true ∧
    onecondition.Test.type (PyVal.bool true) PyType.boolT = true ∧
    onecondition.Test.instance' (PyVal.bool true) PyType.boolT = true := by
  have h1 := claim7_exact_type_vs_instance.1 PyType.boolT PyType.intT rfl
    (by decide) (PyVal.bool true) rfl
  have h2 := claim7_exact_type_vs_instance.2 (PyVal.bool true) PyType.boolT rfl
  exact ⟨rfl, by decide, h1.1, h1.2, h2.1, h2.2⟩

/-- C9: every predicate of the Predicate Set is total on its documented
domain: the `None`/type/equality predicates return a boolean on every input,
and the order-based predicates return a boolean (raise nothing) on every
numeric input. -/
theorem claim9_predicates_total :
    (∀ v, onecondition.Test.none v = true ∨ onecondition.Test.none v = false) ∧
    (∀ v t, onecondition.Test.type v t = true ∨ onecondition.Test.type v t = false) ∧
    (∀ v t, onecondition.Test.instance' v t = true ∨ onecondition.Test.instance' v t = false) ∧
    (∀ v, onecondition.Test.zero v = true ∨ onecondition.Test.zero v = false) ∧
    (∀ v w, onecondition.Test.eq v w = true ∨ onecondition.Test.eq v w = false) ∧
    (∀ v q, toRat v = some q →
      (∃ b, onecondition.Test.positive v = .ok b) ∧
      (∃ b, onecondition.Test.negative v = .ok b)) ∧
    (∀ v m M qv qm qM, toRat v = some qv → toRat m = some qm → toRat M = some qM →
      (∃ b, onecondition.Test.range_inclusive v m M = .ok b) ∧
      (∃ b, onecondition.Test.range_non_inclusive v m M = .ok b)) ∧
    (∀ a b x y, toRat a = some x → toRat b = some y →
      (∃ c, onecondition.Test.gt a b = .ok c) ∧ (∃ c, onecondition.Test.gte a b = .ok c) ∧
      (∃ c, onecondition.Test.lt a b = .ok c) ∧ (∃ c, onecondition.Test.lte a b = .ok c)) := by
  refine ⟨fun v => (Bool.dichotomy _).symm, fun v t => (Bool.dichotomy _).symm,
    fun v t => (Bool.dichotomy _).symm, fun v => (Bool.dichotomy _).symm,
    fun v w => (Bool.dichotomy _).symm, ?_, ?_, ?_⟩
  · intro v q h
    exact ⟨⟨_, Test_positive_num h⟩, ⟨_, Test_negative_num h⟩⟩
  · intro v m M qv qm qM hv hm hM
    exact ⟨⟨_, Test_range_inclusive_num hv hm hM⟩, ⟨_, Test_range_non_inclusive_num hv hm hM⟩⟩
  · intro a b x y hx hy
    exact ⟨⟨_, Test_gt_num hx hy⟩, ⟨_, Test_gte_num hx hy⟩, ⟨_, Test_lt_num hx hy⟩,
      ⟨_, Test_lte_num hx hy⟩⟩

/-- C9, instantiated at numeric inputs `2` and `3`. -/
theorem claim9_predicates_total_witness :
    toRat (PyVal.int 2) = some 2 ∧ toRat (PyVal.int 3) = some 3 ∧
    (∃ b, onecondition.Test.positive (PyVal.int 2) = .ok b) ∧
    (∃ c, onecondition.Test.gt (PyVal.int 2) (PyVal.int 3) = .ok c) :=
  ⟨rfl, rfl, (claim9_predicates_total.2.2.2.2.2.1 (PyVal.int 2) 2 rfl).1,
    (claim9_predicates_total.2.2.2.2.2.2.2 (PyVal.int 2) (PyVal.int 3) 2 3 rfl rfl).1⟩

/-- C10: on every numeric value (integer or rational, NaN excluded by the
model) exactly one of `zero`, `positive`, `negative` is true. -/
theorem claim10_sign_trichotomy :
    ∀ v q, toRat v = some q →
      (onecondition.Test.zero v = true ∨ onecondition.Test.positive v = .ok true ∨
        onecondition.Test.negative v = .ok true) ∧
      ¬(onecondition.Test.zero v = true ∧ onecondition.Test.positive v = .ok true) ∧
      ¬(onecondition.Test.zero v = true ∧ onecondition.Test.negative v = .ok true) ∧
      ¬(onecondition.Test.positive v = .ok true ∧ onecondition.Test.negative v = .ok true) := by
  intro v q h
  rw [Test_zero_num h, Test_positive_num h, Test_negative_num h]
  simp only [Except.ok.injEq, decide_eq_true_eq]
  refine ⟨?_, ?_, ?_, ?_⟩
  · rcases lt_trichotomy q 0 with hq | hq | hq
    · exact Or.inr (Or.inr hq)
    · exact Or.inl hq
    · exact Or.inr (Or.inl hq)
  · rintro ⟨h1, h2⟩
    rw [h1] at h2
    exact lt_irrefl 0 h2
  · rintro ⟨h1, h2⟩
    rw [h1] at h2
    exact lt_irrefl 0 h2
  · rintro ⟨h1, h2⟩
    exact lt_irrefl 0 (h1.trans h2)

/-- C10, instantiated at the numeric input `3`. -/
theorem claim10_sign_trichotomy_witness :
    toRat (PyVal.int 3) = some 3 ∧
    (onecondition.Test.zero (PyVal.int 3) = true ∨
      onecondition.Test.positive (PyVal.int 3) = .ok true ∨
      onecondition.Test.negative (PyVal.int 3) = .ok true) :=
  ⟨rfl, (claim10_sign_trichotomy (PyVal.int 3) 3 rfl).1⟩

/-- C8: both `ValidationError` classes are subclasses of `ValueError`, and
every validator of both copies, on its documented domain, raises (if at all)
only its module's `ValidationError`, which is therefore caught by an
`except ValueError` handler. -/
theorem claim8_validationerror_subtype :
    isSubclassOf PyType.initValidationError PyType.valueError = true ∧
    isSubclassOf PyType.validationError PyType.valueError = true ∧
    (∀ v q, toRat v = some q →
      onlyRaisesVE PyType.initValidationError (onecondition.Validate.positive v)) ∧
    (∀ v, onlyRaisesVE PyType.initValidationError (onecondition.Validate.none v)) ∧
    (∀ v, onlyRaisesVE PyType.initValidationError (onecondition.Validate.not_none v)) ∧
    (∀ v t, onlyRaisesVE PyType.initValidationError (onecondition.Validate.type v t)) ∧
    (∀ v t, onlyRaisesVE PyType.initValidationError (onecondition.Validate.not_type v t)) ∧
    (∀ v t, onlyRaisesVE PyType.initValidationError (onecondition.Validate.instance' v t)) ∧
    (∀ v t, onlyRaisesVE PyType.initValidationError (onecondition.Validate.not_instance v t)) ∧
    (∀ v, onlyRaisesVE PyType.initValidationError (onecondition.Validate.zero v)) ∧
    (∀ v, onlyRaisesVE PyType.initValidationError (onecondition.Validate.not_zero v)) ∧
    (∀ v q, toRat v = some q →
      onlyRaisesVE PyType.initValidationError (onecondition.Validate.not_positive v)) ∧
    (∀ v q, toRat v = some q →
      onlyRaisesVE PyType.initValidationError (onecondition.Validate.negative v)) ∧
    (∀ v q, toRat v = some q →
      onlyRaisesVE PyType.initValidationError (onecondition.Validate.not_negative v)) ∧
    (∀ v m M qv qm qM, toRat v = some qv → toRat m = some qm → toRat M = some qM →
      onlyRaisesVE PyType.initValidationError (onecondition.Validate.range_inclusive v m M)) ∧
    (∀ v m M qv qm qM, toRat v = some qv → toRat m = some qm → toRat M = some qM →
      onlyRaisesVE PyType.initValidationError (onecondition.Validate.not_range_inclusive v m M)) ∧
    (∀ v m M qv qm qM, toRat v = some qv → toRat m = some qm → toRat M = some qM →
      onlyRaisesVE PyType.initValidationError
        (onecondition.Validate.range_non_inclusive v m M)) ∧
    (∀ v m M qv qm qM, toRat v = some qv → toRat m = some qm → toRat M = some qM →
      onlyRaisesVE PyType.initValidationError
        (onecondition.Validate.not_range_non_inclusive v m M)) ∧
    (∀ v w, onlyRaisesVE PyType.initValidationError (onecondition.Validate.eq v w)) ∧
    (∀ v w, onlyRaisesVE PyType.initValidationError (onecondition.Validate.neq v w)) ∧
    (∀ a b x y, toRat a = some x → toRat b = some y →
      onlyRaisesVE PyType.initValidationError (onecondition.Validate.gt a b)) ∧
    (∀ a b x y, toRat a = some x → toRat b = some y →
      onlyRaisesVE PyType.initValidationError (onecondition.Validate.lte a b)) ∧
    (∀ a b x y, toRat a = some x → toRat b = some y →
      onlyRaisesVE PyType.initValidationError (onecondition.Validate.lt a b)) ∧
    (∀ a b x y, toRat a = some x → toRat b = some y →
      onlyRaisesVE PyType.initValidationError (onecondition.Validate.gte a b)) ∧
    (∀ v, onlyRaisesVE PyType.validationError (onecondition.validate.none v)) ∧
    (∀ v, onlyRaisesVE PyType.validationError (onecondition.validate.not_none v)) ∧
    (∀ v t, onlyRaisesVE PyType.validationError (onecondition.validate.specific_type v t)) ∧
    (∀ v t, onlyRaisesVE PyType.validationError (onecondition.validate.not_specific_type v t)) ∧
    (∀ v t, onlyRaisesVE PyType.validationError (onecondition.validate.instance' v t)) ∧
    (∀ v t, onlyRaisesVE PyType.validationError (onecondition.validate.not_instance v t)) ∧
    (∀ v, onlyRaisesVE PyType.validationError (onecondition.validate.zero v)) ∧
    (∀ v, onlyRaisesVE PyType.validationError (onecondition.validate.not_zero v)) ∧
    (∀ v q, toRat v = some q →
      onlyRaisesVE PyType.validationError (onecondition.validate.positive v)) ∧
    (∀ v q, toRat v = some q →
      onlyRaisesVE PyType.validationError (onecondition.validate.not_positive v)) ∧
    (∀ v q, toRat v = some q →
      onlyRaisesVE PyType.validationError (onecondition.validate.negative v)) ∧
    (∀ v q, toRat v = some q →
      onlyRaisesVE PyType.validationError (onecondition.validate.not_negative v)) ∧
    (∀ v m M qv qm qM, toRat v = some qv → toRat m = some qm → toRat M = some qM →
      onlyRaisesVE PyType.validationError (onecondition.validate.range_inclusive v m M)) ∧
    (∀ v m M qv qm qM, toRat v = some qv → toRat m = some qm → toRat M = some qM →
      onlyRaisesVE PyType.validationError (onecondition.validate.not_range_inclusive v m M)) ∧
    (∀ v m M qv qm qM, toRat v = some qv → toRat m = some qm → toRat M = some qM →
      onlyRaisesVE PyType.validationError (onecondition.validate.range_non_inclusive v m M)) ∧
    (∀ v m M qv qm qM, toRat v = some qv → toRat m = some qm → toRat M = some qM →
      onlyRaisesVE PyType.validationError
        (onecondition.validate.not_range_non_inclusive v m M)) ∧
    (∀ v w, onlyRaisesVE PyType.validationError (onecondition.validate.eq v w)) ∧
    (∀ v w, onlyRaisesVE PyType.validationError (onecondition.validate.neq v w)) ∧
    (∀ a b x y, toRat a = some x → toRat b = some y →
      onlyRaisesVE PyType.validationError (onecondition.validate.gt a b)) ∧
    (∀ a b x y, toRat a = some x → toRat b = some y →
      onlyRaisesVE PyType.validationError (onecondition.validate.lt a b)) ∧
    (∀ a b x y, toRat a = some x → toRat b = some y →
      onlyRaisesVE PyType.validationError (onecondition.validate.gte a b)) ∧
    (∀ a b x y, toRat a = some x → toRat b = some y →
      onlyRaisesVE PyType.validationError (onecondition.validate.lte a b)) := by
  refine ⟨rfl, rfl, ?_, ?_, ?_, ?_, ?_, ?_, ?_, ?_, ?_, ?_, ?_, ?_, ?_, ?_, ?_, ?_, ?_, ?_,
    ?_, ?_, ?_, ?_, ?_, ?_, ?_, ?_, ?_, ?_, ?_, ?_, ?_, ?_, ?_, ?_, ?_, ?_, ?_, ?_,
    ?_, ?_, ?_, ?_, ?_, ?_⟩
  · intro v q h e he
    unfold onecondition.Validate.positive at he
    rw [Test_positive_num h] at he
    refine onlyRaisesVE_ite _ _ _ ?_ e he
    rfl
  · intro v
    unfold onecondition.Validate.none
    exact onlyRaisesVE_ite _ _ _ rfl
  · intro v
    unfold onecondition.Validate.not_none
    exact onlyRaisesVE_ite _ _ _ rfl
  · intro v t
    unfold onecondition.Validate.type
    exact onlyRaisesVE_ite _ _ _ rfl
  · intro v t
    unfold onecondition.Validate.not_type
    exact onlyRaisesVE_ite _ _ _ rfl
  · intro v t
    unfold onecondition.Validate.instance'
    exact onlyRaisesVE_ite _ _ _ rfl
  · intro v t
    unfold onecondition.Validate.not_instance
    exact onlyRaisesVE_ite _ _ _ rfl
  · intro v
    unfold onecondition.Validate.zero
    exact onlyRaisesVE_ite _ _ _ rfl
  · intro v
    unfold onecondition.Validate.not_zero
    exact onlyRaisesVE_ite _ _ _ rfl
  · intro v q h e he
    unfold onecondition.Validate.not_positive at he
    rw [Test_positive_num h] at he
    refine onlyRaisesVE_ite _ _ _ ?_ e he
    rfl
  · intro v q h e he
    unfold onecondition.Validate.negative at he
    rw [Test_negative_num h] at he
    refine onlyRaisesVE_ite _ _ _ ?_ e he
    rfl
  · intro v q h e he
    unfold onecondition.Validate.not_negative at he
    rw [Test_negative_num h] at he
    refine onlyRaisesVE_ite _ _ _ ?_ e he
    rfl
  · intro v m M qv qm qM hv hm hM e he
    unfold onecondition.Validate.range_inclusive at he
    rw [Test_range_inclusive_num hv hm hM] at he
    refine onlyRaisesVE_ite _ _ _ ?_ e he
    rfl
  · intro v m M qv qm qM hv hm hM e he
    unfold onecondition.Validate.not_range_inclusive at he
    rw [Test_range_inclusive_num hv hm hM] at he
    refine onlyRaisesVE_ite _ _ _ ?_ e he
    rfl
  · intro v m M qv qm qM hv hm hM e he
    unfold onecondition.Validate.range_non_inclusive at he
    rw [Test_range_non_inclusive_num hv hm hM] at he
    refine onlyRaisesVE_ite _ _ _ ?_ e he
    rfl
  · intro v m M qv qm qM hv hm hM e he
    unfold onecondition.Validate.not_range_non_inclusive at he
    rw [Test_range_non_inclusive_num hv hm hM] at he
    refine onlyRaisesVE_ite _ _ _ ?_ e he
    rfl
  · intro v w
    unfold onecondition.Validate.eq
    exact onlyRaisesVE_ite _ _ _ rfl
  · intro v w
    unfold onecondition.Validate.neq
    exact onlyRaisesVE_ite _ _ _ rfl
  · intro a b x y hx hy e he
    unfold onecondition.Validate.gt at he
    rw [Test_gt_num hx hy] at he
    refine onlyRaisesVE_ite _ _ _ ?_ e he
    rfl
  · intro a b x y hx hy e he
    unfold onecondition.Validate.lte at he
    rw [Test_lte_num hx hy] at he
    refine onlyRaisesVE_ite _ _ _ ?_ e he
    rfl
  · intro a b x y hx hy e he
    unfold onecondition.Validate.lt at he
    rw [Test_lt_num hx hy] at he
    refine onlyRaisesVE_ite _ _ _ ?_ e he
    rfl
  · intro a b x y hx hy e he
    unfold onecondition.Validate.gte at he
    rw [Test_gte_num hx hy] at he
    refine onlyRaisesVE_ite _ _ _ ?_ e he
    rfl
  · intro v
    unfold onecondition.validate.none
    exact onlyRaisesVE_ite _ _ _ rfl
  · intro v
    unfold onecondition.validate.not_none
    exact onlyRaisesVE_ite _ _ _ rfl
  · intro v t
    unfold onecondition.validate.specific_type
    exact onlyRaisesVE_ite _ _ _ rfl
  · intro v t
    unfold onecondition.validate.not_specific_type
    exact onlyRaisesVE_ite _ _ _ rfl
  · intro v t
    unfold onecondition.validate.instance'
    exact onlyRaisesVE_ite _ _ _ rfl
  · intro v t
    unfold onecondition.validate.not_instance
    exact onlyRaisesVE_ite _ _ _ rfl
  · intro v
    unfold onecondition.validate.zero
    exact onlyRaisesVE_ite _ _ _ rfl
  · intro v
    unfold onecondition.validate.not_zero
    exact onlyRaisesVE_ite _ _ _ rfl
  · intro v q h e he
    unfold onecondition.validate.positive at he
    rw [test_positive_eq, Test_positive_num h] at he
    refine onlyRaisesVE_ite _ _ _ ?_ e he
    rfl
  · intro v q h e he
    unfold onecondition.validate.not_positive at he
    rw [test_positive_eq, Test_positive_num h] at he
    refine onlyRaisesVE_ite _ _ _ ?_ e he
    rfl
  · intro v q h e he
    unfold onecondition.validate.negative at he
    rw [test_negative_eq, Test_negative_num h] at he
    refine onlyRaisesVE_ite _ _ _ ?_ e he
    rfl
  · intro v q h e he
    unfold onecondition.validate.not_negative at he
    rw [test_negative_eq, Test_negative_num h] at he
    refine onlyRaisesVE_ite _ _ _ ?_ e he
    rfl
  · intro v m M qv qm qM hv hm hM e he
    unfold onecondition.validate.range_inclusive at he
    rw [test_range_inclusive_eq, Test_range_inclusive_num hv hm hM] at he
    refine onlyRaisesVE_ite _ _ _ ?_ e he
    rfl
  · intro v m M qv qm qM hv hm hM e he
    unfold onecondition.validate.not_range_inclusive at he
    rw [test_range_inclusive_eq, Test_range_inclusive_num hv hm hM] at he
    refine onlyRaisesVE_ite _ _ _ ?_ e he
    rfl
  · intro v m M qv qm qM hv hm hM e he
    unfold onecondition.validate.range_non_inclusive at he
    rw [test_range_non_inclusive_eq, Test_range_non_inclusive_num hv hm hM] at he
    refine onlyRaisesVE_ite _ _ _ ?_ e he
    rfl
  · intro v m M qv qm qM hv hm hM e he
    unfold onecondition.validate.not_range_non_inclusive at he
    rw [test_range_non_inclusive_eq, Test_range_non_inclusive_num hv hm hM] at he
    refine onlyRaisesVE_ite _ _ _ ?_ e he
    rfl
  · intro v w
    unfold onecondition.validate.eq
    exact onlyRaisesVE_ite _ _ _ rfl
  · intro v w
    unfold onecondition.validate.neq
    exact onlyRaisesVE_ite _ _ _ rfl
  · intro a b x y hx hy e he
    unfold onecondition.validate.gt at he
    rw [test_gt_eq, Test_gt_num hx hy] at he
    refine onlyRaisesVE_ite _ _ _ ?_ e he
    rfl
  · intro a b x y hx hy e he
    unfold onecondition.validate.lt at he
    rw [test_lt_eq, Test_lt_num hx hy] at he
    refine onlyRaisesVE_ite _ _ _ ?_ e he
    rfl
  · intro a b x y hx hy e he
    unfold onecondition.validate.gte at he
    rw [test_gte_eq, Test_gte_num hx hy] at he
    refine onlyRaisesVE_ite _ _ _ ?_ e he
    rfl
  · intro a b x y hx hy e he
    unfold onecondition.validate.lte at he
    rw [test_lte_eq, Test_lte_num hx hy] at he
    refine onlyRaisesVE_ite _ _ _ ?_ e he
    rfl

/-- C8, instantiated: `Validate.positive(0)` raises its module's
`ValidationError`, and that exception is caught by `except ValueError`. -/
theorem claim8_validationerror_subtype_witness :
    (onecondition.ValidationError (some "Value '0' must be positive (non-zero)")).cls =
      PyType.initValidationError ∧
    catchesClass PyType.valueError
      (onecondition.ValidationError (some "Value '0' must be positive (non-zero)")) = true :=
  claim8_validationerror_subtype.2.2.1 (PyVal.int 0) 0 rfl
    (onecondition.ValidationError (some "Value '0' must be positive (non-zero)")) rfl
